import Mathlib

/-!
Verification of the tribal assessment / transmission-tracking system.

The Python sources are shallowly embedded:
* `AssessmentSys` embeds `src/assessment_system.py` (findings, shareable view,
  severity summary);
* `TrackerSys` embeds `src/tribal_data_tracker.py` (transmission records, the
  validation gate, audit trail, tracker summary);
* `CisaSys` embeds `src/cisa_transmission.py` (the encrypt/decrypt envelope).

Python `Optional[str]` fields become `Option String`; Python string constants
stay strings; nondeterministic inputs of the code (timestamps from
`datetime.utcnow`, digests from `hashlib`, nonces from `os.urandom`) become
explicit parameters of the embedded operations.
-/

namespace AssessmentSys

/-- The string values of the `ProtectionLevel` enum
(`src/assessment_system.py`, `ProtectionLevel`). `add_finding` stores
`protection_level.value`, so findings carry these strings. -/
def ProtectionLevel.PUBLIC : String := "public"

def ProtectionLevel.SENSITIVE : String := "sensitive"

def ProtectionLevel.CONFIDENTIAL : String := "confidential"

def ProtectionLevel.TRIBAL_SOVEREIGN : String := "tribal_sovereign"

/-- A finding dict as built by `Assessment.add_finding`: every field is set
there, so all fields are total. -/
structure Finding where
  finding_id : String
  finding_type : String
  severity : String
  description : String
  protection_level : String
  timestamp : String
deriving Repr, DecidableEq

/-- The severity dict `{"critical": 0, "high": 0, "medium": 0, "low": 0,
"info": 0}` of `Assessment._calculate_severity_summary`. -/
structure SeveritySummary where
  critical : Nat
  high : Nat
  medium : Nat
  low : Nat
  info : Nat
deriving Repr, DecidableEq

/-- Python's `str.lower()` restricted to the character level (the severity
strings of this system are ASCII, where `.lower()` is exactly a
character-by-character lowercase map). `String.toLower` computes the same
map but its `mapAux` implementation does not reduce in the kernel, so the
list-of-characters form is used. -/
def pyLower (s : String) : String := ⟨s.data.map Char.toLower⟩

/-- One iteration of the loop in `_calculate_severity_summary`:
`severity = finding.get("severity", "info").lower()` (the `"info"` default is
for a missing key, which `add_finding` never produces), then
`if severity in summary: summary[severity] += 1` — a severity outside the five
keys updates nothing. -/
def severityStep (summary : SeveritySummary) (finding : Finding) : SeveritySummary :=
  let severity := pyLower finding.severity
  if severity = "critical" then { summary with critical := summary.critical + 1 }
  else if severity = "high" then { summary with high := summary.high + 1 }
  else if severity = "medium" then { summary with medium := summary.medium + 1 }
  else if severity = "low" then { summary with low := summary.low + 1 }
  else if severity = "info" then { summary with info := summary.info + 1 }
  else summary

/-- `Assessment._calculate_severity_summary`. -/
def calculate_severity_summary (findings : List Finding) : SeveritySummary :=
  findings.foldl severityStep ⟨0, 0, 0, 0, 0⟩

/-- The `Assessment` object state: id, type (`assessment_type.value`), name,
timestamp and the ordered findings list. -/
structure Assessment where
  assessment_id : String
  assessment_type : String
  name : String
  timestamp : String
  findings : List Finding
deriving Repr, DecidableEq

/-- The filter of `get_shareable_results`:
`f["protection_level"] in [ProtectionLevel.PUBLIC.value, ProtectionLevel.SENSITIVE.value]`. -/
def isShareable (f : Finding) : Bool :=
  f.protection_level ∈ [ProtectionLevel.PUBLIC, ProtectionLevel.SENSITIVE]

/-- The dict returned by `Assessment.get_shareable_results` (the constant
`metadata` sub-dict is omitted: it carries no state). -/
structure ShareableResults where
  assessment_id : String
  assessment_type : String
  name : String
  timestamp : String
  findings_count : Nat
  findings : List Finding
  severity_summary : SeveritySummary
deriving Repr, DecidableEq

/-- `Assessment.get_shareable_results`. -/
def get_shareable_results (a : Assessment) : ShareableResults :=
  let shareable_findings := a.findings.filter isShareable
  { assessment_id := a.assessment_id
    assessment_type := a.assessment_type
    name := a.name
    timestamp := a.timestamp
    findings_count := shareable_findings.length
    findings := shareable_findings
    severity_summary := calculate_severity_summary shareable_findings }

/-- `Assessment.add_finding`: appends one finding dict; the generated
`finding_id` and the timestamp are taken as parameters. -/
def add_finding (a : Assessment) (fid ftype severity description plevel ts : String) :
    Assessment :=
  { a with findings := a.findings ++ [⟨fid, ftype, severity, description, plevel, ts⟩] }

end AssessmentSys

namespace AssessmentSys

/-- **C1.** `get_shareable_results` returns exactly the findings whose
`protection_level` is `"public"` or `"sensitive"`, in input order (it is the
`filter` of the input list, hence a sublist in the same relative order);
`"confidential"` and `"tribal_sovereign"` findings are excluded, every
`"public"` or `"sensitive"` finding is included, and `findings_count` is the
length of the returned sublist. -/
theorem shareable_results_filter (a : Assessment) :
    (get_shareable_results a).findings =
      a.findings.filter (fun f =>
        f.protection_level = "public" ∨ f.protection_level = "sensitive") ∧
    (get_shareable_results a).findings.Sublist a.findings ∧
    (∀ f ∈ a.findings,
      (f.protection_level = "public" ∨ f.protection_level = "sensitive") →
        f ∈ (get_shareable_results a).findings) ∧
    (∀ f ∈ a.findings,
      (f.protection_level = "confidential" ∨ f.protection_level = "tribal_sovereign") →
        f ∉ (get_shareable_results a).findings) ∧
    (get_shareable_results a).findings_count = (get_shareable_results a).findings.length := by
  have hfil : (get_shareable_results a).findings =
      a.findings.filter (fun f =>
        f.protection_level = "public" ∨ f.protection_level = "sensitive") := by
    simp only [get_shareable_results]
    apply List.filter_congr
    intro f _
    simp [isShareable, ProtectionLevel.PUBLIC, ProtectionLevel.SENSITIVE]
  refine ⟨hfil, ?_, ?_, ?_, ?_⟩
  · rw [hfil]; exact List.filter_sublist _
  · intro f hf hp
    rw [hfil, List.mem_filter]
    exact ⟨hf, by simpa using hp⟩
  · intro f hf hp hmem
    rw [hfil, List.mem_filter] at hmem
    have h2 := hmem.2
    simp only [decide_eq_true_eq] at h2
    rcases hp with h' | h' <;> rw [h'] at h2 <;> revert h2 <;> decide
  · simp [get_shareable_results]

/-- What `severityStep` does to the `critical` bucket. -/
lemma severityStep_critical (acc : SeveritySummary) (f : Finding) :
    (severityStep acc f).critical =
      acc.critical + (if pyLower f.severity = "critical" then 1 else 0) := by
  unfold severityStep
  by_cases h1 : pyLower f.severity = "critical" <;>
    by_cases h2 : pyLower f.severity = "high" <;>
    by_cases h3 : pyLower f.severity = "medium" <;>
    by_cases h4 : pyLower f.severity = "low" <;>
    by_cases h5 : pyLower f.severity = "info" <;>
    simp [h1, h2, h3, h4, h5]

/-- What `severityStep` does to the `high` bucket. -/
lemma severityStep_high (acc : SeveritySummary) (f : Finding) :
    (severityStep acc f).high =
      acc.high + (if pyLower f.severity = "high" then 1 else 0) := by
  unfold severityStep
  by_cases h1 : pyLower f.severity = "critical" <;>
    by_cases h2 : pyLower f.severity = "high" <;>
    by_cases h3 : pyLower f.severity = "medium" <;>
    by_cases h4 : pyLower f.severity = "low" <;>
    by_cases h5 : pyLower f.severity = "info" <;>
    simp [h1, h2, h3, h4, h5]

/-- What `severityStep` does to the `medium` bucket. -/
lemma severityStep_medium (acc : SeveritySummary) (f : Finding) :
    (severityStep acc f).medium =
      acc.medium + (if pyLower f.severity = "medium" then 1 else 0) := by
  unfold severityStep
  by_cases h1 : pyLower f.severity = "critical" <;>
    by_cases h2 : pyLower f.severity = "high" <;>
    by_cases h3 : pyLower f.severity = "medium" <;>
    by_cases h4 : pyLower f.severity = "low" <;>
    by_cases h5 : pyLower f.severity = "info" <;>
    simp [h1, h2, h3, h4, h5]

/-- What `severityStep` does to the `low` bucket. -/
lemma severityStep_low (acc : SeveritySummary) (f : Finding) :
    (severityStep acc f).low =
      acc.low + (if pyLower f.severity = "low" then 1 else 0) := by
  unfold severityStep
  by_cases h1 : pyLower f.severity = "critical" <;>
    by_cases h2 : pyLower f.severity = "high" <;>
    by_cases h3 : pyLower f.severity = "medium" <;>
    by_cases h4 : pyLower f.severity = "low" <;>
    by_cases h5 : pyLower f.severity = "info" <;>
    simp [h1, h2, h3, h4, h5]

/-- What `severityStep` does to the `info` bucket: only the exact (lowercased)
value `"info"` lands there; other unrecognized severities are dropped. -/
lemma severityStep_info (acc : SeveritySummary) (f : Finding) :
    (severityStep acc f).info =
      acc.info + (if pyLower f.severity = "info" then 1 else 0) := by
  unfold severityStep
  by_cases h1 : pyLower f.severity = "critical" <;>
    by_cases h2 : pyLower f.severity = "high" <;>
    by_cases h3 : pyLower f.severity = "medium" <;>
    by_cases h4 : pyLower f.severity = "low" <;>
    by_cases h5 : pyLower f.severity = "info" <;>
    simp [h1, h2, h3, h4, h5]

/-- The loop of `_calculate_severity_summary`, field by field: each bucket
counts the findings whose lowercased severity equals its key. -/
lemma foldl_severityStep (fs : List Finding) : ∀ acc : SeveritySummary,
    (fs.foldl severityStep acc).critical =
      acc.critical + fs.countP (fun f => pyLower f.severity = "critical") ∧
    (fs.foldl severityStep acc).high =
      acc.high + fs.countP (fun f => pyLower f.severity = "high") ∧
    (fs.foldl severityStep acc).medium =
      acc.medium + fs.countP (fun f => pyLower f.severity = "medium") ∧
    (fs.foldl severityStep acc).low =
      acc.low + fs.countP (fun f => pyLower f.severity = "low") ∧
    (fs.foldl severityStep acc).info =
      acc.info + fs.countP (fun f => pyLower f.severity = "info") := by
  induction fs with
  | nil => intro acc; simp
  | cons f fs ih =>
    intro acc
    obtain ⟨ih1, ih2, ih3, ih4, ih5⟩ := ih (severityStep acc f)
    simp only [List.foldl_cons, List.countP_cons, ih1, ih2, ih3, ih4, ih5,
      severityStep_critical, severityStep_high, severityStep_medium,
      severityStep_low, severityStep_info, decide_eq_true_eq]
    refine ⟨?_, ?_, ?_, ?_, ?_⟩ <;> split_ifs <;> omega

/-- Adding up the five per-bucket counts: exactly the findings whose
lowercased severity is one of the five recognized values are counted,
each exactly once. -/
lemma countP_sum_five (fs : List Finding) :
    fs.countP (fun f => pyLower f.severity = "critical") +
      fs.countP (fun f => pyLower f.severity = "high") +
      fs.countP (fun f => pyLower f.severity = "medium") +
      fs.countP (fun f => pyLower f.severity = "low") +
      fs.countP (fun f => pyLower f.severity = "info") =
    fs.countP (fun f =>
      pyLower f.severity = "critical" ∨ pyLower f.severity = "high" ∨
      pyLower f.severity = "medium" ∨ pyLower f.severity = "low" ∨
      pyLower f.severity = "info") := by
  induction fs with
  | nil => simp
  | cons f fs ih =>
    simp only [List.countP_cons, decide_eq_true_eq]
    split_ifs <;> first | omega | simp_all

/-- An assessment holding a single public finding whose severity value
`"unknown"` is none of the five recognized buckets. -/
def unknownSeverityAssessment : Assessment :=
  ⟨"a2", "security", "demo", "t0",
    [⟨"f1", "misc", "unknown", "d", "public", "t1"⟩]⟩

/-- **C3 fails on the code.** For the assessment with one shareable finding of
severity `"unknown"`, `_calculate_severity_summary` counts it in no bucket
(in particular not in `"info"`), so the bucket counts sum to `0`, not to the
number of filtered findings (`1`). -/
theorem severity_summary_counterexample :
    (get_shareable_results unknownSeverityAssessment).findings.length = 1 ∧
    (get_shareable_results unknownSeverityAssessment).severity_summary.info = 0 ∧
    (get_shareable_results unknownSeverityAssessment).severity_summary.critical +
      (get_shareable_results unknownSeverityAssessment).severity_summary.high +
      (get_shareable_results unknownSeverityAssessment).severity_summary.medium +
      (get_shareable_results unknownSeverityAssessment).severity_summary.low +
      (get_shareable_results unknownSeverityAssessment).severity_summary.info ≠
      (get_shareable_results unknownSeverityAssessment).findings.length := by
  decide

/-- **C3 (amended).** The severity histogram of `get_shareable_results` counts
each filtered finding whose lowercased severity is one of the five known
values (`critical`, `high`, `medium`, `low`, `info`) in that bucket; a
filtered finding with any other severity value is counted in no bucket, so
the bucket counts sum to the number of filtered findings with a recognized
severity — at most, not always equal to, the number of filtered findings. -/
theorem severity_summary_amended (a : Assessment) :
    (get_shareable_results a).severity_summary.critical =
      (get_shareable_results a).findings.countP
        (fun f => pyLower f.severity = "critical") ∧
    (get_shareable_results a).severity_summary.high =
      (get_shareable_results a).findings.countP
        (fun f => pyLower f.severity = "high") ∧
    (get_shareable_results a).severity_summary.medium =
      (get_shareable_results a).findings.countP
        (fun f => pyLower f.severity = "medium") ∧
    (get_shareable_results a).severity_summary.low =
      (get_shareable_results a).findings.countP
        (fun f => pyLower f.severity = "low") ∧
    (get_shareable_results a).severity_summary.info =
      (get_shareable_results a).findings.countP
        (fun f => pyLower f.severity = "info") ∧
    (get_shareable_results a).severity_summary.critical +
      (get_shareable_results a).severity_summary.high +
      (get_shareable_results a).severity_summary.medium +
      (get_shareable_results a).severity_summary.low +
      (get_shareable_results a).severity_summary.info =
      (get_shareable_results a).findings.countP (fun f =>
        pyLower f.severity = "critical" ∨ pyLower f.severity = "high" ∨
        pyLower f.severity = "medium" ∨ pyLower f.severity = "low" ∨
        pyLower f.severity = "info") ∧
    (get_shareable_results a).severity_summary.critical +
      (get_shareable_results a).severity_summary.high +
      (get_shareable_results a).severity_summary.medium +
      (get_shareable_results a).severity_summary.low +
      (get_shareable_results a).severity_summary.info ≤
      (get_shareable_results a).findings.length := by
  have hsum : (get_shareable_results a).severity_summary =
      calculate_severity_summary ((get_shareable_results a).findings) := by
    simp [get_shareable_results]
  obtain ⟨h1, h2, h3, h4, h5⟩ :=
    foldl_severityStep ((get_shareable_results a).findings) ⟨0, 0, 0, 0, 0⟩
  rw [hsum]
  unfold calculate_severity_summary
  refine ⟨?_, ?_, ?_, ?_, ?_, ?_, ?_⟩
  · rw [h1]; simp
  · rw [h2]; simp
  · rw [h3]; simp
  · rw [h4]; simp
  · rw [h5]; simp
  · rw [h1, h2, h3, h4, h5]
    simpa using countP_sum_five ((get_shareable_results a).findings)
  · rw [h1, h2, h3, h4, h5]
    simp only [show (⟨0, 0, 0, 0, 0⟩ : SeveritySummary).critical = 0 from rfl,
      show (⟨0, 0, 0, 0, 0⟩ : SeveritySummary).high = 0 from rfl,
      show (⟨0, 0, 0, 0, 0⟩ : SeveritySummary).medium = 0 from rfl,
      show (⟨0, 0, 0, 0, 0⟩ : SeveritySummary).low = 0 from rfl,
      show (⟨0, 0, 0, 0, 0⟩ : SeveritySummary).info = 0 from rfl, Nat.zero_add]
    have := countP_sum_five ((get_shareable_results a).findings)
    have hle := List.countP_le_length (l := (get_shareable_results a).findings)
      (p := fun f =>
        decide (pyLower f.severity = "critical" ∨ pyLower f.severity = "high" ∨
        pyLower f.severity = "medium" ∨ pyLower f.severity = "low" ∨
        pyLower f.severity = "info"))
    omega

/-- Sanity example from the spec (§8): an assessment with findings
`[public/info, tribal_sovereign/info]` has shareable `findings_count = 1`. -/
theorem shareable_results_spec_example :
    (get_shareable_results
      ⟨"a1", "security", "demo", "t0",
        [⟨"f1", "network", "info", "d1", "public", "t1"⟩,
         ⟨"f2", "sovereignty", "info", "d2", "tribal_sovereign", "t2"⟩]⟩).findings_count
      = 1 := by
  decide

end AssessmentSys

namespace TrackerSys

/-- The string constants of class `DataClassification`
(`src/tribal_data_tracker.py`). -/
def DataClassification.PUBLIC : String := "PUBLIC"

def DataClassification.SENSITIVE : String := "SENSITIVE"

def DataClassification.CONFIDENTIAL : String := "CONFIDENTIAL"

def DataClassification.TRIBAL_SOVEREIGN : String := "TRIBAL_SOVEREIGN"

/-- The string constants of class `TransmissionStatus`. -/
def TransmissionStatus.PENDING : String := "PENDING"

def TransmissionStatus.APPROVED : String := "APPROVED"

def TransmissionStatus.TRANSMITTED : String := "TRANSMITTED"

def TransmissionStatus.FAILED : String := "FAILED"

def TransmissionStatus.LOGGED : String := "LOGGED"

/-- An entry of `audit_trail` as built by
`DataTransmissionRecord.add_audit_entry`. -/
structure AuditEntry where
  timestamp : String
  action : String
  details : String
deriving Repr, DecidableEq

/-- The state of a `DataTransmissionRecord` object. `data_hash` and
`encryption_method` start as Python `None`, hence `Option String`. -/
structure DataTransmissionRecord where
  record_id : String
  data_type : String
  destination : String
  classification : String
  data_size_bytes : Nat
  timestamp : String
  status : String
  data_hash : Option String
  encryption_method : Option String
  tribal_ip_protected : Bool
  audit_trail : List AuditEntry
deriving Repr, DecidableEq

/-- Python truthiness of an `Optional[str]` field: `not x` holds exactly for
`None` and the empty string, so `x` is truthy iff it is a non-`None`,
non-empty string. `validate_transmission` tests its two optional fields this
way (`if not record.encryption_method`, `if not record.data_hash`). -/
def truthy : Option String → Bool
  | none => false
  | some s => decide (s ≠ "")

/-- `DataTransmissionRecord.__init__`: the generated `record_id` and the
`datetime.utcnow` timestamp are taken as parameters; `status` starts
`PENDING`, both optional fields start `None`, the audit trail starts empty. -/
def DataTransmissionRecord.init (record_id data_type destination classification : String)
    (data_size_bytes : Nat) (timestamp : String) : DataTransmissionRecord :=
  { record_id := record_id
    data_type := data_type
    destination := destination
    classification := classification
    data_size_bytes := data_size_bytes
    timestamp := timestamp
    status := TransmissionStatus.PENDING
    data_hash := none
    encryption_method := none
    tribal_ip_protected := true
    audit_trail := [] }

/-- `DataTransmissionRecord.add_audit_entry`: appends one timestamped entry at
the end of `audit_trail`. -/
def add_audit_entry (r : DataTransmissionRecord) (ts action details : String) :
    DataTransmissionRecord :=
  { r with audit_trail := r.audit_trail ++ [⟨ts, action, details⟩] }

/-- `DataTransmissionRecord.set_data_hash`: `hashlib.sha256` is a library
primitive, so the hexdigest it produces is taken as the parameter `digest`;
the field is set to it and one audit entry is appended. -/
def set_data_hash (r : DataTransmissionRecord) (digest ts : String) :
    DataTransmissionRecord :=
  add_audit_entry { r with data_hash := some digest } ts "DATA_HASHED"
    ("SHA-256 hash calculated: " ++ digest.take 16 ++ "...")

/-- `DataTransmissionRecord.set_encryption`. -/
def set_encryption (r : DataTransmissionRecord) (method ts : String) :
    DataTransmissionRecord :=
  add_audit_entry { r with encryption_method := some method } ts "ENCRYPTED"
    ("Data encrypted using " ++ method)

/-- `DataTransmissionRecord.mark_transmitted`. -/
def mark_transmitted (r : DataTransmissionRecord) (ts : String) :
    DataTransmissionRecord :=
  add_audit_entry { r with status := TransmissionStatus.TRANSMITTED } ts
    "TRANSMITTED" "Data successfully transmitted to destination"

/-- `DataTransmissionRecord.mark_failed`. -/
def mark_failed (r : DataTransmissionRecord) (error ts : String) :
    DataTransmissionRecord :=
  add_audit_entry { r with status := TransmissionStatus.FAILED } ts
    "FAILED" ("Transmission failed: " ++ error)

/-- `TribalDataTracker.validate_transmission`: returns the Python `bool`
result together with the updated record (the Python method mutates its
argument). The three checks run in source order: classification, then
`encryption_method`, then `data_hash`; only the pass branch sets
`status = APPROVED`. -/
def validate_transmission (r : DataTransmissionRecord) (ts : String) :
    Bool × DataTransmissionRecord :=
  if r.classification = DataClassification.TRIBAL_SOVEREIGN then
    (false, add_audit_entry r ts "VALIDATION_FAILED"
      "TRIBAL_SOVEREIGN data cannot leave network")
  else if !truthy r.encryption_method then
    (false, add_audit_entry r ts "VALIDATION_FAILED"
      "No encryption method specified")
  else if !truthy r.data_hash then
    (false, add_audit_entry r ts "VALIDATION_FAILED"
      "Data hash not calculated")
  else
    (true,
      { add_audit_entry r ts "VALIDATION_PASSED" "All validation checks passed"
          with status := TransmissionStatus.APPROVED })

/-- `TribalDataTracker.log_transmission` restricted to the record state (the
two file writes are I/O outside the state model): sets `status := LOGGED`
unconditionally, then appends the `LOGGED` audit entry naming the main log
file. -/
def log_transmission (r : DataTransmissionRecord) (log_file ts : String) :
    DataTransmissionRecord :=
  add_audit_entry { r with status := TransmissionStatus.LOGGED } ts
    "LOGGED" ("Record logged to " ++ log_file)

/-- A record as returned by `TribalDataTracker.create_transmission_record`:
`DataTransmissionRecord.__init__` followed by the `CREATED` audit entry. -/
def newRecord (record_id data_type destination classification : String)
    (data_size_bytes : Nat) (ts_init ts_created : String) : DataTransmissionRecord :=
  add_audit_entry
    (DataTransmissionRecord.init record_id data_type destination classification
      data_size_bytes ts_init)
    ts_created "CREATED" "Transmission record created"

/-- The operations the repository performs on an existing
`DataTransmissionRecord` (record methods plus the two tracker methods that
take a record). Each constructor carries the nondeterministic inputs of the
corresponding Python call. -/
inductive RecordOp where
  | setDataHash (digest ts : String)
  | setEncryption (method ts : String)
  | markTransmitted (ts : String)
  | markFailed (error ts : String)
  | validate (ts : String)
  | logTransmission (log_file ts : String)
deriving Repr, DecidableEq

/-- Dispatch of one `RecordOp` to the embedded operation. -/
def applyOp (r : DataTransmissionRecord) : RecordOp → DataTransmissionRecord
  | .setDataHash digest ts => set_data_hash r digest ts
  | .setEncryption method ts => set_encryption r method ts
  | .markTransmitted ts => mark_transmitted r ts
  | .markFailed error ts => mark_failed r error ts
  | .validate ts => (validate_transmission r ts).2
  | .logTransmission log_file ts => log_transmission r log_file ts

/-- A sequence of operations applied to a record, in order. -/
def runOps (r : DataTransmissionRecord) (ops : List RecordOp) :
    DataTransmissionRecord :=
  ops.foldl applyOp r

/-- The tracker state (`TribalDataTracker.__init__`): a log directory and the
list of records it has created. Python stores object references, so the list
reflects later mutations of its records; the theorems below therefore
quantify over arbitrary record lists. -/
structure TribalDataTracker where
  log_directory : String
  records : List DataTransmissionRecord
deriving Repr, DecidableEq

/-- One dict update `counts[key] = counts.get(key, 0) + 1` on an
insertion-ordered dict with unique keys, modelled as an association list:
an existing key is bumped in place, a new key is appended with count 1. -/
def bumpCount : List (String × Nat) → String → List (String × Nat)
  | [], k => [(k, 1)]
  | (k', c) :: rest, k =>
      if k' = k then (k', c + 1) :: rest else (k', c) :: bumpCount rest k

/-- The dict returned by `TribalDataTracker.get_transmission_summary`. -/
structure TransmissionSummary where
  total_transmissions : Nat
  status_breakdown : List (String × Nat)
  classification_breakdown : List (String × Nat)
  destination_breakdown : List (String × Nat)
  log_file : String
deriving Repr, DecidableEq

/-- `TribalDataTracker.get_transmission_summary`: the single loop updates the
three count dicts independently, one `bumpCount` per record each. -/
def get_transmission_summary (t : TribalDataTracker) : TransmissionSummary :=
  { total_transmissions := t.records.length
    status_breakdown := t.records.foldl (fun m r => bumpCount m r.status) []
    classification_breakdown :=
      t.records.foldl (fun m r => bumpCount m r.classification) []
    destination_breakdown :=
      t.records.foldl (fun m r => bumpCount m r.destination) []
    log_file := t.log_directory ++ "/tribal_data_transmission_log.jsonl" }

/-- The sum of the counts of a breakdown dict. -/
def sumCounts (m : List (String × Nat)) : Nat := (m.map Prod.snd).sum

end TrackerSys

namespace TrackerSys

/-- A truthy optional field is in particular set (`isSome`). -/
lemma truthy_isSome (o : Option String) (h : truthy o = true) : o.isSome := by
  cases o <;> simp_all [truthy]

/-- A reachable record whose `data_hash` and `encryption_method` are both set
(`isSome`), whose classification is not `TRIBAL_SOVEREIGN`, but whose
encryption method is the empty string: built by `create_transmission_record`,
`set_data_hash` (with the hexdigest of some payload) and
`set_encryption("")`. -/
def emptyEncryptionRecord : DataTransmissionRecord :=
  runOps (newRecord "r1" "assessment_results" "CISA" "PUBLIC" 1024 "t0" "t1")
    [.setDataHash "2d711642b726b04401627ca9fbac32f5" "t2",
     .setEncryption "" "t3"]

/-- **C2 fails on the code.** `emptyEncryptionRecord` has classification
`"PUBLIC"` (not `TRIBAL_SOVEREIGN`) and both optional fields set, yet
`validate_transmission` returns `False`: the check `not
record.encryption_method` uses Python truthiness, so the set-but-empty
encryption method fails validation. -/
theorem validate_counterexample :
    emptyEncryptionRecord.classification ≠ DataClassification.TRIBAL_SOVEREIGN ∧
    emptyEncryptionRecord.data_hash.isSome ∧
    emptyEncryptionRecord.encryption_method.isSome ∧
    (validate_transmission emptyEncryptionRecord "t4").1 = false := by
  decide

/-- **C2 (amended).** `validate_transmission` returns `True` iff the
classification is not `TRIBAL_SOVEREIGN` and both `data_hash` and
`encryption_method` are set to non-empty values (the checks are Python
truthiness tests, so a field holding the empty string counts as unset); a
`TRIBAL_SOVEREIGN` record always fails regardless of the hash/encryption
state; and on a passing validation the record's status is set to
`APPROVED`. -/
theorem validate_iff_truthy (r : DataTransmissionRecord) (ts : String) :
    ((validate_transmission r ts).1 = true ↔
      (r.classification ≠ DataClassification.TRIBAL_SOVEREIGN ∧
        truthy r.data_hash = true ∧ truthy r.encryption_method = true)) ∧
    (r.classification = DataClassification.TRIBAL_SOVEREIGN →
      (validate_transmission r ts).1 = false) ∧
    ((validate_transmission r ts).1 = true →
      (validate_transmission r ts).2.status = TransmissionStatus.APPROVED) := by
  unfold validate_transmission
  split_ifs with h1 h2 h3 <;> simp_all [add_audit_entry]

/-- A record that passes validation: created with classification
`"SENSITIVE"`, then hashed and encrypted with non-empty values (the workflow
of the module's `__main__` block). -/
def approvableRecord : DataTransmissionRecord :=
  runOps (newRecord "r2" "assessment_results" "CISA" "SENSITIVE" 1024 "t0" "t1")
    [.setDataHash "916f0027a575074ce72a331777c3478d" "t2",
     .setEncryption "AES-256-GCM" "t3"]

/-- Witness for `validate_iff_truthy` at a concrete passing record. -/
theorem validate_iff_truthy_witness :
    (validate_transmission approvableRecord "t4").1 = true ∧
    (validate_transmission approvableRecord "t4").2.status =
      TransmissionStatus.APPROVED :=
  ⟨by decide, (validate_iff_truthy approvableRecord "t4").2.2 (by decide)⟩

/-- **C5.** `log_transmission` sets the record's status to `LOGGED`
unconditionally, whatever the prior status was (including after a failed
validation, whose status the failure left untouched). -/
theorem log_transmission_sets_logged (r : DataTransmissionRecord)
    (log_file ts : String) :
    (log_transmission r log_file ts).status = TransmissionStatus.LOGGED := by
  rfl

/-- **C8.** When `validate_transmission` returns `False`, the record's status
is unchanged: every failure branch appends its audit entry and returns before
touching `status`. -/
theorem validate_failure_keeps_status (r : DataTransmissionRecord) (ts : String)
    (h : (validate_transmission r ts).1 = false) :
    (validate_transmission r ts).2.status = r.status := by
  unfold validate_transmission at *
  split_ifs at * <;> simp_all [add_audit_entry]

/-- A `TRIBAL_SOVEREIGN` record, which always fails validation. -/
def sovereignRecord : DataTransmissionRecord :=
  newRecord "r3" "cultural_data" "CISA" "TRIBAL_SOVEREIGN" 2048 "t0" "t1"

/-- Witness for `validate_failure_keeps_status` at a concrete failing
record. -/
theorem validate_failure_keeps_status_witness :
    (validate_transmission sovereignRecord "t2").1 = false ∧
    (validate_transmission sovereignRecord "t2").2.status = sovereignRecord.status :=
  ⟨by decide, validate_failure_keeps_status sovereignRecord "t2" (by decide)⟩

/-- **C6.** Every `validate_transmission` call appends exactly one audit
entry, pass or fail, and the entry is decided by the first applicable rule in
the exact precedence: `TRIBAL_SOVEREIGN` classification, then missing
(falsy) encryption method, then missing (falsy) hash, then pass. -/
theorem validate_audit_entry (r : DataTransmissionRecord) (ts : String) :
    (validate_transmission r ts).2.audit_trail.length = r.audit_trail.length + 1 ∧
    (r.classification = DataClassification.TRIBAL_SOVEREIGN →
      (validate_transmission r ts).2.audit_trail = r.audit_trail ++
        [⟨ts, "VALIDATION_FAILED", "TRIBAL_SOVEREIGN data cannot leave network"⟩]) ∧
    (r.classification ≠ DataClassification.TRIBAL_SOVEREIGN →
      truthy r.encryption_method = false →
      (validate_transmission r ts).2.audit_trail = r.audit_trail ++
        [⟨ts, "VALIDATION_FAILED", "No encryption method specified"⟩]) ∧
    (r.classification ≠ DataClassification.TRIBAL_SOVEREIGN →
      truthy r.encryption_method = true → truthy r.data_hash = false →
      (validate_transmission r ts).2.audit_trail = r.audit_trail ++
        [⟨ts, "VALIDATION_FAILED", "Data hash not calculated"⟩]) ∧
    (r.classification ≠ DataClassification.TRIBAL_SOVEREIGN →
      truthy r.encryption_method = true → truthy r.data_hash = true →
      (validate_transmission r ts).2.audit_trail = r.audit_trail ++
        [⟨ts, "VALIDATION_PASSED", "All validation checks passed"⟩]) := by
  unfold validate_transmission
  split_ifs with h1 h2 h3 <;> simp_all [add_audit_entry]

/-- Witness for `validate_audit_entry` at a concrete sovereign record. -/
theorem validate_audit_entry_witness :
    sovereignRecord.classification = DataClassification.TRIBAL_SOVEREIGN ∧
    (validate_transmission sovereignRecord "t2").2.audit_trail =
      sovereignRecord.audit_trail ++
        [⟨"t2", "VALIDATION_FAILED", "TRIBAL_SOVEREIGN data cannot leave network"⟩] :=
  ⟨by decide, (validate_audit_entry sovereignRecord "t2").2.1 (by decide)⟩

end TrackerSys

namespace TrackerSys

/-- The `APPROVED` invariant is preserved by every single operation: the only
operation that can move `status` to `APPROVED` is a passing
`validate_transmission`, whose guards imply the three field conditions, and
no operation ever unsets a set optional field or changes the
classification. -/
lemma applyOp_preserves_approved (r : DataTransmissionRecord) (op : RecordOp)
    (h : r.status = TransmissionStatus.APPROVED →
      r.classification ≠ DataClassification.TRIBAL_SOVEREIGN ∧
      r.encryption_method.isSome ∧ r.data_hash.isSome) :
    (applyOp r op).status = TransmissionStatus.APPROVED →
      (applyOp r op).classification ≠ DataClassification.TRIBAL_SOVEREIGN ∧
      (applyOp r op).encryption_method.isSome ∧ (applyOp r op).data_hash.isSome := by
  cases op with
  | setDataHash digest ts =>
    intro hs
    have := h hs
    simp_all [applyOp, set_data_hash, add_audit_entry]
  | setEncryption method ts =>
    intro hs
    have := h hs
    simp_all [applyOp, set_encryption, add_audit_entry]
  | markTransmitted ts =>
    intro hs
    simp [applyOp, mark_transmitted, add_audit_entry,
      TransmissionStatus.TRANSMITTED, TransmissionStatus.APPROVED] at hs
  | markFailed error ts =>
    intro hs
    simp [applyOp, mark_failed, add_audit_entry,
      TransmissionStatus.FAILED, TransmissionStatus.APPROVED] at hs
  | logTransmission log_file ts =>
    intro hs
    simp [applyOp, log_transmission, add_audit_entry,
      TransmissionStatus.LOGGED, TransmissionStatus.APPROVED] at hs
  | validate ts =>
    intro hs
    simp only [applyOp, validate_transmission] at hs ⊢
    split_ifs at hs ⊢ with h1 h2 h3
    · have := h (by simpa [add_audit_entry] using hs)
      simpa [add_audit_entry] using this
    · have := h (by simpa [add_audit_entry] using hs)
      simpa [add_audit_entry] using this
    · have := h (by simpa [add_audit_entry] using hs)
      simpa [add_audit_entry] using this
    · refine ⟨by simpa [add_audit_entry] using h1, ?_, ?_⟩
      · simp only [Bool.not_eq_true'] at h2
        simpa [add_audit_entry] using truthy_isSome _ (by simpa using h2)
      · simp only [Bool.not_eq_true'] at h3
        simpa [add_audit_entry] using truthy_isSome _ (by simpa using h3)

/-- The invariant propagates along any operation sequence. -/
lemma runOps_preserves_approved (ops : List RecordOp) :
    ∀ r : DataTransmissionRecord,
    (r.status = TransmissionStatus.APPROVED →
      r.classification ≠ DataClassification.TRIBAL_SOVEREIGN ∧
      r.encryption_method.isSome ∧ r.data_hash.isSome) →
    (runOps r ops).status = TransmissionStatus.APPROVED →
      (runOps r ops).classification ≠ DataClassification.TRIBAL_SOVEREIGN ∧
      (runOps r ops).encryption_method.isSome ∧ (runOps r ops).data_hash.isSome := by
  induction ops with
  | nil => intro r h; exact h
  | cons op ops ih =>
    intro r h
    exact ih (applyOp r op) (applyOp_preserves_approved r op h)

/-- **C4.** In every state of a `DataTransmissionRecord` reachable from
`create_transmission_record` under any sequence of record and tracker
operations, `status = APPROVED` implies: classification is not
`TRIBAL_SOVEREIGN`, `encryption_method` is set, and `data_hash` is set —
simultaneously, whatever the order in which hash and encryption were set
before validation. -/
theorem approved_record_invariant
    (record_id data_type destination classification : String)
    (data_size_bytes : Nat) (ts_init ts_created : String) (ops : List RecordOp)
    (h : (runOps (newRecord record_id data_type destination classification
        data_size_bytes ts_init ts_created) ops).status =
      TransmissionStatus.APPROVED) :
    (runOps (newRecord record_id data_type destination classification
        data_size_bytes ts_init ts_created) ops).classification ≠
      DataClassification.TRIBAL_SOVEREIGN ∧
    (runOps (newRecord record_id data_type destination classification
        data_size_bytes ts_init ts_created) ops).encryption_method.isSome ∧
    (runOps (newRecord record_id data_type destination classification
        data_size_bytes ts_init ts_created) ops).data_hash.isSome := by
  refine runOps_preserves_approved ops _ ?_ h
  intro habs
  simp [newRecord, DataTransmissionRecord.init, add_audit_entry,
    TransmissionStatus.PENDING, TransmissionStatus.APPROVED] at habs

/-- Witness for `approved_record_invariant`: the `__main__` workflow (hash,
encrypt, validate) reaches `APPROVED`, and the invariant holds there. -/
theorem approved_record_invariant_witness :
    (runOps (newRecord "r2" "assessment_results" "CISA" "SENSITIVE" 1024 "t0" "t1")
      [.setDataHash "916f0027a575074ce72a331777c3478d" "t2",
       .setEncryption "AES-256-GCM" "t3", .validate "t4"]).status =
      TransmissionStatus.APPROVED ∧
    (runOps (newRecord "r2" "assessment_results" "CISA" "SENSITIVE" 1024 "t0" "t1")
      [.setDataHash "916f0027a575074ce72a331777c3478d" "t2",
       .setEncryption "AES-256-GCM" "t3", .validate "t4"]).classification ≠
      DataClassification.TRIBAL_SOVEREIGN :=
  ⟨by decide,
    (approved_record_invariant "r2" "assessment_results" "CISA" "SENSITIVE"
      1024 "t0" "t1"
      [.setDataHash "916f0027a575074ce72a331777c3478d" "t2",
       .setEncryption "AES-256-GCM" "t3", .validate "t4"] (by decide)).1⟩

/-- **C7.** No operation removes or modifies existing audit-trail entries:
after any operation the audit trail is the prior trail extended at the end
(by exactly the new entries the operation appends), and a freshly created
record's trail is exactly its `CREATED` entry. -/
theorem audit_trail_append_only (r : DataTransmissionRecord) (op : RecordOp)
    (record_id data_type destination classification : String)
    (data_size_bytes : Nat) (ts_init ts_created : String) :
    (∃ new, (applyOp r op).audit_trail = r.audit_trail ++ new) ∧
    (newRecord record_id data_type destination classification data_size_bytes
        ts_init ts_created).audit_trail =
      [⟨ts_created, "CREATED", "Transmission record created"⟩] := by
  constructor
  · cases op with
    | setDataHash digest ts => exact ⟨_, rfl⟩
    | setEncryption method ts => exact ⟨_, rfl⟩
    | markTransmitted ts => exact ⟨_, rfl⟩
    | markFailed error ts => exact ⟨_, rfl⟩
    | logTransmission log_file ts => exact ⟨_, rfl⟩
    | validate ts =>
      simp only [applyOp, validate_transmission]
      split_ifs <;> exact ⟨_, rfl⟩
  · rfl

end TrackerSys

namespace TrackerSys

/-- One dict update adds exactly 1 to the total of the counts. -/
lemma bumpCount_sum (m : List (String × Nat)) (k : String) :
    sumCounts (bumpCount m k) = sumCounts m + 1 := by
  induction m with
  | nil => rfl
  | cons p rest ih =>
    obtain ⟨k', c⟩ := p
    simp only [bumpCount]
    split_ifs with hk
    · simp only [sumCounts, List.map_cons, List.sum_cons]
      omega
    · simp only [sumCounts, List.map_cons, List.sum_cons]
      simp only [sumCounts] at ih
      omega

/-- One dict update keeps every count positive. -/
lemma bumpCount_pos (m : List (String × Nat)) (k : String)
    (h : ∀ p ∈ m, 0 < p.2) : ∀ p ∈ bumpCount m k, 0 < p.2 := by
  induction m with
  | nil => intro p hp; simp [bumpCount] at hp; simp [hp]
  | cons q rest ih =>
    obtain ⟨k', c⟩ := q
    intro p hp
    by_cases hk : k' = k
    · simp [bumpCount, hk] at hp
      rcases hp with hp | hp
      · subst hp; simp
      · exact h p (by simp [hp])
    · simp [bumpCount, hk] at hp
      rcases hp with hp | hp
      · subst hp; exact h (k', c) (by simp)
      · exact ih (fun q hq => h q (by simp [hq])) p hp

/-- Folding one `bumpCount` per record over any starting dict adds the number
of records to the total of the counts. -/
lemma foldl_bumpCount_sum (key : DataTransmissionRecord → String) :
    ∀ (records : List DataTransmissionRecord) (m : List (String × Nat)),
    sumCounts (records.foldl (fun m r => bumpCount m (key r)) m) =
      sumCounts m + records.length := by
  intro records
  induction records with
  | nil => intro m; simp
  | cons r rest ih =>
    intro m
    simp only [List.foldl_cons, List.length_cons, ih, bumpCount_sum]
    omega

/-- Folding one `bumpCount` per record keeps every count positive. -/
lemma foldl_bumpCount_pos (key : DataTransmissionRecord → String) :
    ∀ (records : List DataTransmissionRecord) (m : List (String × Nat)),
    (∀ p ∈ m, 0 < p.2) →
    ∀ p ∈ records.foldl (fun m r => bumpCount m (key r)) m, 0 < p.2 := by
  intro records
  induction records with
  | nil => intro m h; exact h
  | cons r rest ih =>
    intro m h
    exact ih (bumpCount m (key r)) (bumpCount_pos m (key r) h)

/-- **C10.** `get_transmission_summary` reports `total_transmissions` equal to
the number of records the tracker holds, and in each of the three breakdown
dicts (by status, classification, destination) the counts sum to
`total_transmissions` and every count is positive. -/
theorem transmission_summary_counts (t : TribalDataTracker) :
    (get_transmission_summary t).total_transmissions = t.records.length ∧
    sumCounts (get_transmission_summary t).status_breakdown =
      (get_transmission_summary t).total_transmissions ∧
    sumCounts (get_transmission_summary t).classification_breakdown =
      (get_transmission_summary t).total_transmissions ∧
    sumCounts (get_transmission_summary t).destination_breakdown =
      (get_transmission_summary t).total_transmissions ∧
    (∀ p ∈ (get_transmission_summary t).status_breakdown, 0 < p.2) ∧
    (∀ p ∈ (get_transmission_summary t).classification_breakdown, 0 < p.2) ∧
    (∀ p ∈ (get_transmission_summary t).destination_breakdown, 0 < p.2) := by
  refine ⟨rfl, ?_, ?_, ?_, ?_, ?_, ?_⟩
  · simpa [get_transmission_summary, sumCounts]
      using foldl_bumpCount_sum (fun r => r.status) t.records []
  · simpa [get_transmission_summary, sumCounts]
      using foldl_bumpCount_sum (fun r => r.classification) t.records []
  · simpa [get_transmission_summary, sumCounts]
      using foldl_bumpCount_sum (fun r => r.destination) t.records []
  · exact foldl_bumpCount_pos (fun r => r.status) t.records [] (by simp)
  · exact foldl_bumpCount_pos (fun r => r.classification) t.records [] (by simp)
  · exact foldl_bumpCount_pos (fun r => r.destination) t.records [] (by simp)

end TrackerSys

namespace CisaSys

/-- The standard base64 alphabet (RFC 4648), as used by Python's
`base64.b64encode`/`b64decode`, which `encrypt_data`/`decrypt_data` call on
the AESGCM ciphertext and nonce. -/
def b64Alphabet : List Char :=
  "ABCDEFGHIJKLMNOPQRSTUVWXYZabcdefghijklmnopqrstuvwxyz0123456789+/".data

/-- The base64 character of a 6-bit group. -/
def sextetToChar (n : Nat) : Char := b64Alphabet.getD n '='

/-- The 6-bit group of a base64 character (`none` for padding or foreign
characters). -/
def charToSextet (c : Char) : Option Nat := b64Alphabet.findIdx? (· == c)

lemma charToSextet_sextetToChar (n : Nat) (hn : n < 64) :
    charToSextet (sextetToChar n) = some n := by
  have h : ∀ m < 64, charToSextet (sextetToChar m) = some m := by decide
  exact h n hn

lemma sextetToChar_ne_pad (n : Nat) (hn : n < 64) : sextetToChar n ≠ '=' := by
  have h : ∀ m < 64, sextetToChar m ≠ '=' := by decide
  exact h n hn

/-- Modelled from the spec: `base64.b64encode` is a Python standard-library
primitive, not code of this repository; the spec treats serialization as
plumbing around the opaque encrypt capability. This is RFC 4648 base64 over
a byte list (24-bit groups into four 6-bit characters, `=`-padded). -/
def b64encode : List Nat → List Char
  | [] => []
  | [b0] => [sextetToChar (b0 / 4), sextetToChar (b0 % 4 * 16), '=', '=']
  | [b0, b1] => [sextetToChar (b0 / 4), sextetToChar (b0 % 4 * 16 + b1 / 16),
      sextetToChar (b1 % 16 * 4), '=']
  | b0 :: b1 :: b2 :: rest =>
      sextetToChar (b0 / 4) :: sextetToChar (b0 % 4 * 16 + b1 / 16) ::
      sextetToChar (b1 % 16 * 4 + b2 / 64) :: sextetToChar (b2 % 64) ::
      b64encode rest

/-- Modelled from the spec: `base64.b64decode`, the inverse direction of the
standard-library primitive; `none` models the decode error on malformed
input. -/
def b64decode : List Char → Option (List Nat)
  | [] => some []
  | c0 :: c1 :: c2 :: c3 :: rest =>
      match charToSextet c0, charToSextet c1 with
      | some s0, some s1 =>
        if c2 = '=' then
          if c3 = '=' ∧ rest = [] then some [s0 * 4 + s1 / 16] else none
        else
          match charToSextet c2 with
          | some s2 =>
            if c3 = '=' then
              if rest = [] then some [s0 * 4 + s1 / 16, s1 % 16 * 16 + s2 / 4]
              else none
            else
              match charToSextet c3 with
              | some s3 =>
                (b64decode rest).map (fun tail =>
                  (s0 * 4 + s1 / 16) :: (s1 % 16 * 16 + s2 / 4) ::
                  (s2 % 4 * 64 + s3) :: tail)
              | none => none
          | none => none
      | _, _ => none
  | _ => none

/-- Base64 decoding inverts base64 encoding on byte lists. -/
theorem b64decode_encode (l : List Nat) (h : ∀ b ∈ l, b < 256) :
    b64decode (b64encode l) = some l := by
  induction l using b64encode.induct with
  | case1 => rfl
  | case2 b0 =>
    have h0 : b0 < 256 := h b0 (by simp)
    have e0 := charToSextet_sextetToChar (b0 / 4) (by omega)
    have e1 := charToSextet_sextetToChar (b0 % 4 * 16) (by omega)
    simp only [b64encode, b64decode, e0, e1, if_pos rfl]
    simp only [and_self, reduceIte]
    refine congrArg some ?_
    simp only [List.cons.injEq, and_true]
    omega
  | case3 b0 b1 =>
    have h0 : b0 < 256 := h b0 (by simp)
    have h1 : b1 < 256 := h b1 (by simp)
    have e0 := charToSextet_sextetToChar (b0 / 4) (by omega)
    have e1 := charToSextet_sextetToChar (b0 % 4 * 16 + b1 / 16) (by omega)
    have e2 := charToSextet_sextetToChar (b1 % 16 * 4) (by omega)
    have ne2 := sextetToChar_ne_pad (b1 % 16 * 4) (by omega)
    simp only [b64encode, b64decode, e0, e1, e2, if_neg ne2, if_pos rfl, reduceIte]
    refine congrArg some ?_
    simp only [List.cons.injEq, and_true]
    omega
  | case4 b0 b1 b2 rest ih =>
    have h0 : b0 < 256 := h b0 (by simp)
    have h1 : b1 < 256 := h b1 (by simp)
    have h2 : b2 < 256 := h b2 (by simp)
    have ih' := ih (fun b hb => h b (by simp [hb]))
    have e0 := charToSextet_sextetToChar (b0 / 4) (by omega)
    have e1 := charToSextet_sextetToChar (b0 % 4 * 16 + b1 / 16) (by omega)
    have e2 := charToSextet_sextetToChar (b1 % 16 * 4 + b2 / 64) (by omega)
    have e3 := charToSextet_sextetToChar (b2 % 64) (by omega)
    have ne2 := sextetToChar_ne_pad (b1 % 16 * 4 + b2 / 64) (by omega)
    have ne3 := sextetToChar_ne_pad (b2 % 64) (by omega)
    simp only [b64encode, b64decode, e0, e1, e2, e3, if_neg ne2, if_neg ne3, ih',
      Option.map_some']
    refine congrArg some ?_
    simp only [List.cons.injEq, and_true]
    omega

/-- Modelled from the spec: the AEAD cipher (`AESGCM` from the `cryptography`
library) is not code of this repository; the spec treats it as an opaque
`encrypt(bytes, key) -> ciphertext` capability whose decrypt inverts encrypt
within the one process holding the key. `encrypt key nonce data` is
`AESGCM(key).encrypt(nonce, data, None)`; `decrypt` the converse; the two
laws state that ciphertexts are byte strings and that decryption with the
same key and nonce recovers any byte-string plaintext. -/
structure AEADScheme where
  encrypt : List Nat → List Nat → List Nat → List Nat
  decrypt : List Nat → List Nat → List Nat → Option (List Nat)
  encrypt_isBytes : ∀ key nonce data, ∀ b ∈ encrypt key nonce data, b < 256
  decrypt_encrypt : ∀ key nonce data, (∀ b ∈ data, b < 256) →
    decrypt key nonce (encrypt key nonce data) = some data

/-- The dict returned by `SecureTransmitter.encrypt_data`. -/
structure EncryptedPayload where
  ciphertext : String
  nonce : String
  algorithm : String
  timestamp : String
deriving Repr, DecidableEq

/-- `SecureTransmitter.encrypt_data`: generates a nonce (`os.urandom(12)`,
taken as the parameter `nonce`), encrypts with the instance key, and returns
the base64-encoded ciphertext and nonce with metadata. -/
def encrypt_data (A : AEADScheme) (key nonce : List Nat) (ts : String)
    (data : List Nat) : EncryptedPayload :=
  { ciphertext := String.mk (b64encode (A.encrypt key nonce data))
    nonce := String.mk (b64encode nonce)
    algorithm := "AES-256-GCM"
    timestamp := ts }

/-- `SecureTransmitter.decrypt_data`: base64-decodes the `ciphertext` and
`nonce` fields and decrypts with the instance key; `none` models the
`CISATransmissionError` raised on failure. -/
def decrypt_data (A : AEADScheme) (key : List Nat) (p : EncryptedPayload) :
    Option (List Nat) :=
  match b64decode p.ciphertext.data, b64decode p.nonce.data with
  | some ct, some n => A.decrypt key n ct
  | _, _ => none

/-- **C9.** For every byte string `data`, `decrypt_data` applied to the
result of `encrypt_data` on the same transmitter state (same key, and the
nonce the encryption drew) returns `data`: the encrypt/decrypt pair is a
round trip within one process. -/
theorem encrypt_decrypt_roundtrip (A : AEADScheme) (key nonce : List Nat)
    (ts : String) (data : List Nat)
    (hnonce : ∀ b ∈ nonce, b < 256) (hdata : ∀ b ∈ data, b < 256) :
    decrypt_data A key (encrypt_data A key nonce ts data) = some data := by
  have hct := b64decode_encode (A.encrypt key nonce data)
    (A.encrypt_isBytes key nonce data)
  have hn := b64decode_encode nonce hnonce
  simp only [decrypt_data, encrypt_data, hct, hn]
  exact A.decrypt_encrypt key nonce data hdata

/-- A concrete AEAD instance for the witness: a keystream-style shift cipher
(ciphertext byte = plaintext byte + key/nonce-derived shift, mod 256). -/
def shiftScheme : AEADScheme where
  encrypt := fun key nonce data =>
    data.map (fun b => (b + (key.sum + nonce.sum)) % 256)
  decrypt := fun key nonce ct =>
    some (ct.map (fun b => (b + 256 - (key.sum + nonce.sum) % 256) % 256))
  encrypt_isBytes := by
    intro key nonce data b hb
    simp only [List.mem_map] at hb
    obtain ⟨a, _, rfl⟩ := hb
    exact Nat.mod_lt _ (by norm_num)
  decrypt_encrypt := by
    intro key nonce data hd
    refine congrArg some ?_
    induction data with
    | nil => rfl
    | cons a tl ih =>
      have ha : a < 256 := hd a (by simp)
      simp only [List.map_cons, List.cons.injEq]
      refine ⟨by omega, ih (fun b hb => hd b (by simp [hb]))⟩

/-- Witness for `encrypt_decrypt_roundtrip`: a concrete 12-byte nonce, key
and payload round-trip under `shiftScheme`. -/
theorem encrypt_decrypt_roundtrip_witness :
    (∀ b ∈ [104, 105, 33], b < 256) ∧
    decrypt_data shiftScheme [7, 3]
      (encrypt_data shiftScheme [7, 3] [0, 1, 2, 3, 4, 5, 6, 7, 8, 9, 10, 11]
        "t" [104, 105, 33]) = some [104, 105, 33] :=
  ⟨by decide,
    encrypt_decrypt_roundtrip shiftScheme [7, 3]
      [0, 1, 2, 3, 4, 5, 6, 7, 8, 9, 10, 11] "t" [104, 105, 33]
      (by decide) (by decide)⟩

end CisaSys
